/-
  Verification of the bioSearcherAI word-search pipeline.

  Shallow embedding of the Python sources:
    - src/backend/biology_game.py  (LangGraph agent, WordSearchGenerator, BiologyGame)
    - src/backend/game_api.py      (Flask API: create_game / submit_game routes)
    - src/biology_game.py          (CLI variant of the agent and generator)

  Modelling conventions:
    - Python strings are lists of Unicode code points (`List Nat`).  The
      ASCII fragment of `str.isalpha`/`str.upper`/`str.strip` serves where
      only ASCII behaviour matters; the grid repair is additionally modelled
      with an abstract Unicode character table (`UnicodeTables`, cells as
      strings), because `str.isalpha` accepts every Unicode letter and
      `str.upper` can map a letter outside A–Z or to several characters.
    - `random.randint(65, 90)` and `random.choice` are modelled by threading an
      arbitrary stream `g : Nat → Nat` (resp. an arbitrary index) through the
      function; theorems quantify over every stream, so they hold for every
      possible sequence of random draws.
    - External collaborators (the text-generation capability and the Wikipedia
      lookup) are modelled as oracle records: each call site reads one oracle
      field whose value is either the returned text or an exception marker,
      exactly mirroring which `try/except` region the call sits in.
    - Python `float` arithmetic on the score is modelled exactly over `ℚ`;
      `round` is round-half-to-even as in Python 3.
-/
import Mathlib

namespace BioSearcher

/-! ## Characters as code points (ASCII fragment used by the sources) -/

/-- `str.isalpha` on an ASCII code point: `A`–`Z` (65–90) or `a`–`z` (97–122). -/
def isalpha (c : Nat) : Bool :=
  (65 ≤ c && c ≤ 90) || (97 ≤ c && c ≤ 122)

/-- `str.upper` on one ASCII code point: lowercase letters shift down by 32. -/
def upperChar (c : Nat) : Nat :=
  if 97 ≤ c && c ≤ 122 then c - 32 else c

/-- `word.upper()`: upper-case every code point of the word. -/
def upperStr (w : List Nat) : List Nat := w.map upperChar

/-- Whitespace for `str.strip()` (ASCII fragment: space, TAB, LF, VT, FF, CR). -/
def isspace (c : Nat) : Bool :=
  c == 32 || c == 9 || c == 10 || c == 11 || c == 12 || c == 13

/-- `piece.strip()`: drop whitespace from both ends. -/
def strip (w : List Nat) : List Nat :=
  ((w.dropWhile isspace).reverse.dropWhile isspace).reverse

/-! ## TermFilter
    `[term.strip() for term in response.split(",")]` followed by
    `[term for term in terms if len(term) > 3 and len(term) < 15][:cap]`
    (src/backend/biology_game.py:160-161, src/biology_game.py:94-95;
    cap is 10 for target terms, 8 for distractor terms). -/

/-- Term extraction from a comma-separated generation response (code point 44 is `,`). -/
def termFilter (response : List Nat) (cap : Nat) : List (List Nat) :=
  (((response.splitOn 44).map strip).filter
      (fun t => 3 < t.length && t.length < 15)).take cap

/-! ## Grid repair (WordSearchGenerator.generate_grid)
    src/backend/biology_game.py:407-429 and src/biology_game.py:196-218
    (the two variants are line-for-line identical here). -/

/-- One random uppercase letter: `chr(random.randint(65, 90))`, with the RNG
    modelled as an arbitrary stream `g` consumed at position `k`. -/
def randLetter (g : Nat → Nat) (k : Nat) : Nat := 65 + g k % 26

/-- One `while`-loop padding row: `[chr(random.randint(65, 90)) for _ in range(size)]`. -/
def randRow (g : Nat → Nat) (off size : Nat) : List Nat :=
  (List.range size).map (fun i => randLetter g (off + i))

/-- `[c.upper() for c in line.replace(' ', '') if c.isalpha()]`
    (the `replace(' ', '')` is subsumed by the `isalpha` filter). -/
def stripRow (line : List Nat) : List Nat :=
  (line.filter isalpha).map upperChar

/-- The `for line in lines` loop: stop once `size` rows are collected; keep a
    stripped line iff it has at least `size` letters, truncated to `size`. -/
def collectRows (size : Nat) (acc : List (List Nat)) : List (List Nat) → List (List Nat)
  | [] => acc
  | line :: rest =>
    if size ≤ acc.length then acc
    else
      let row := stripRow line
      if size ≤ row.length then collectRows size (acc ++ [row.take size]) rest
      else collectRows size acc rest

/-- The trailing per-row fix-up: pad a short row with random letters to `size`
    cells, then `row[:size]`. -/
def padRow (g : Nat → Nat) (off size : Nat) (row : List Nat) : List Nat :=
  (row ++ (List.range (size - row.length)).map (fun i => randLetter g (off + i))).take size

/-- `for i, row in enumerate(grid): ... grid[i] = row[:size]` — fix every row
    in place, threading the row index `i` for the RNG positions. -/
def padAll (g : Nat → Nat) (size : Nat) (i : Nat) : List (List Nat) → List (List Nat)
  | [] => []
  | row :: rest => padRow g (size * (size + i)) size row :: padAll g size (i + 1) rest

/-- `WordSearchGenerator.generate_grid`, from the point where the generation
    response has been split into lines (`response.content.strip().split('\n')`):
    collect acceptable rows, append whole random rows while fewer than `size`
    rows exist, then fix every row's length. The word list only influences the
    prompt, not the repair, so it is not a parameter here. -/
def generate_grid (g : Nat → Nat) (lines : List (List Nat)) (size : Nat) : List (List Nat) :=
  let grid := collectRows size [] lines
  let grid := grid ++ (List.range (size - grid.length)).map (fun r => randRow g (size * r) size)
  padAll g size 0 grid

/-! ## Unicode-faithful grid repair
    Python's `str.isalpha` accepts every Unicode letter, and `str.upper` maps
    through the Unicode case table — possibly outside A–Z (`é` → `É`) and
    possibly to several characters (`ß` → `SS`), so a grid cell
    (`c.upper()` at backend line 414 / CLI line 203) is a *string*.  The
    character database is abstracted as a table; the concrete fragment used
    below fixes only the code points the theorems exercise. -/

/-- The Unicode character data consulted by `str.isalpha` and `str.upper`:
    the letter classifier and the (string-valued) upper-case mapping. -/
structure UnicodeTables where
  isalpha : Nat → Bool
  upper : Nat → List Nat

/-- `[c.upper() for c in line.replace(' ', '') if c.isalpha()]` with the real
    Unicode semantics: each cell is the string `c.upper()`. -/
def stripRowU (u : UnicodeTables) (line : List Nat) : List (List Nat) :=
  (line.filter u.isalpha).map u.upper

/-- The collection loop of `generate_grid`, on Unicode-faithful rows. -/
def collectRowsU (u : UnicodeTables) (size : Nat) (acc : List (List (List Nat))) :
    List (List Nat) → List (List (List Nat))
  | [] => acc
  | line :: rest =>
    if size ≤ acc.length then acc
    else
      let row := stripRowU u line
      if size ≤ row.length then collectRowsU u size (acc ++ [row.take size]) rest
      else collectRowsU u size acc rest

/-- A whole random padding row: each cell the one-character string
    `chr(random.randint(65, 90))`. -/
def randRowU (g : Nat → Nat) (off size : Nat) : List (List Nat) :=
  (List.range size).map (fun i => [randLetter g (off + i)])

/-- The per-row fix-up on Unicode-faithful rows. -/
def padRowU (g : Nat → Nat) (off size : Nat) (row : List (List Nat)) : List (List Nat) :=
  (row ++ (List.range (size - row.length)).map (fun i => [randLetter g (off + i)])).take size

/-- `for i, row in enumerate(grid): ...` on Unicode-faithful rows. -/
def padAllU (g : Nat → Nat) (size i : Nat) :
    List (List (List Nat)) → List (List (List Nat))
  | [] => []
  | row :: rest => padRowU g (size * (size + i)) size row :: padAllU g size (i + 1) rest

/-- `WordSearchGenerator.generate_grid` with the real Unicode semantics of
    `str.isalpha`/`str.upper`: same repair structure as `generate_grid`, but a
    cell is the string a character upper-cases to. -/
def generate_gridU (u : UnicodeTables) (g : Nat → Nat) (lines : List (List Nat))
    (size : Nat) : List (List (List Nat)) :=
  let grid := collectRowsU u size [] lines
  let grid := grid ++ (List.range (size - grid.length)).map (fun r => randRowU g (size * r) size)
  padAllU g size 0 grid

/-- The fragment of the real Unicode tables the theorems exercise: ASCII
    behaves as `isalpha`/`upperChar`, the Latin-1 letter `é` (U+00E9) is
    alphabetic and upper-cases to `É` (U+00C9), and `ß` (U+00DF) is
    alphabetic and upper-cases to the two-character `SS` — exactly Python's
    `'é'.isalpha()`, `'é'.upper()`, `'ß'.upper()`. -/
def latin1Tables : UnicodeTables :=
  { isalpha := fun c => isalpha c || c == 0xE9 || c == 0xDF
    upper := fun c =>
      if c == 0xE9 then [0xC9]
      else if c == 0xDF then [83, 83]
      else [upperChar c] }

/-- Written from the spec's words (§4.6 step 2), for comparison with the code:
    the accepted rows are the stripped lines holding at least `N` letters,
    truncated to exactly `N`, in the order encountered, cut off after `N` rows. -/
def specAcceptedRows (size : Nat) (lines : List (List Nat)) : List (List Nat) :=
  (((lines.map stripRow).filter (fun r => decide (size ≤ r.length))).map
      (fun r => r.take size)).take size

/-! ## String literals as code points -/

/-- The code points of a Lean string literal (used only to write down the
    Python string constants of the sources). -/
def codes (s : String) : List Nat := s.data.map Char.toNat

/-- `str.lower` on one ASCII code point. -/
def lowerChar (c : Nat) : Nat :=
  if 65 ≤ c && c ≤ 90 then c + 32 else c

/-- `word.lower()`. -/
def lowerStr (w : List Nat) : List Nat := w.map lowerChar

/-- Python `s.split()` with no argument: split on whitespace runs, no empty
    pieces. -/
def pySplitWS (w : List Nat) : List (List Nat) :=
  (w.splitOnP isspace).filter (fun p => !p.isEmpty)

/-- Python substring test `p in l` on code-point lists. -/
def isSub (p l : List Nat) : Bool :=
  (List.range (l.length + 1)).any (fun i => (l.drop i).take p.length == p)

/-- `random.choice(l)`: an arbitrary draw, modelled by reducing an arbitrary
    index modulo the length; on the empty list `random.choice` raises
    `IndexError`, modelled by `none`. -/
def pyChoice (idx : Nat) (l : List α) : Option α := l.get? (idx % l.length)

/-! ## Python rounding, modelled exactly over ℚ -/

/-- Python 3 `round(x)`: nearest integer, ties to even. -/
def pyRound (q : ℚ) : ℤ :=
  if q - ⌊q⌋ < 1 / 2 then ⌊q⌋
  else if 1 / 2 < q - ⌊q⌋ then ⌊q⌋ + 1
  else if ⌊q⌋ % 2 = 0 then ⌊q⌋ else ⌊q⌋ + 1

/-- Python 3 `round(x, 1)`: round to one decimal place. -/
def pyRound1 (q : ℚ) : ℚ := (pyRound (q * 10) : ℚ) / 10

/-! ## ScoringEngine: BiologyGame.calculate_results
    (src/backend/biology_game.py:438-453) -/

/-- The dict returned by `calculate_results`. -/
structure CalcResults where
  correct_found : List (List Nat)
  missed_words : List (List Nat)
  score : ℚ
  total_words : Nat
  deriving Repr, DecidableEq

/-- `BiologyGame.calculate_results(target_words, found_words)`. -/
def calculate_results (target_words found_words : List (List Nat)) : CalcResults :=
  let target_upper := target_words.map upperStr
  let found_upper := found_words.map upperStr
  let correct_found := found_upper.filter (fun w => target_upper.contains w)
  let missed_words := target_words.filter (fun w => !(found_upper.contains (upperStr w)))
  let score : ℚ :=
    if target_words = [] then 0
    else (correct_found.length : ℚ) / (target_words.length : ℚ) * 100
  { correct_found := correct_found
    missed_words := missed_words
    score := pyRound1 score
    total_words := target_words.length }

/-! ## Session store and the submit route (src/backend/game_api.py) -/

/-- One value of the module-level `game_store` dict (game_api.py:66-71). -/
structure StoredGame where
  topic : List Nat
  targetWords : List (List Nat)
  distractorWords : List (List Nat)
  grid : List (List Nat)
  deriving Repr, DecidableEq

/-- The `game_store` dict, as an association list whose first matching key
    wins on lookup. -/
abbrev GameStore := List (List Nat × StoredGame)

/-- `game_id in game_store` / `game_store[game_id]`. -/
def storeLookup (store : GameStore) (gid : List Nat) : Option StoredGame :=
  (store.find? (fun p => p.1 == gid)).map Prod.snd

/-- `del game_store[game_id]`. -/
def storeErase (store : GameStore) (gid : List Nat) : GameStore :=
  store.filter (fun p => !(p.1 == gid))

/-- `game_store[game_id] = value`. -/
def storeInsert (store : GameStore) (gid : List Nat) (v : StoredGame) : GameStore :=
  (gid, v) :: storeErase store gid

/-- The 200-body of `/api/game/submit` (game_api.py:170-177). -/
structure SubmitResult where
  topic : List Nat
  targetWords : List (List Nat)
  foundWords : List (List Nat)
  missedWords : List (List Nat)
  score : ℚ
  totalWords : Nat
  deriving Repr, DecidableEq

/-- A response of the submit route: 200 with a result, 400 or 404 with an
    error message. -/
inductive SubmitResponse where
  | ok (r : SubmitResult)
  | badRequest (msg : List Nat)
  | notFound (msg : List Nat)
  deriving Repr, DecidableEq

/-- HTTP status of a submit response. -/
def SubmitResponse.status : SubmitResponse → Nat
  | .ok _ => 200
  | .badRequest _ => 400
  | .notFound _ => 404

/-- Score field of a submit response, when it is a 200. -/
def SubmitResponse.score : SubmitResponse → Option ℚ
  | .ok r => some r.score
  | _ => none

/-- `submit_game` (game_api.py:144-182): `gameId` and `foundWords` are the two
    request-body fields, `none` when absent (`data.get`); the route validates
    the id, scores the submission, deletes the session and answers 200. -/
def submit_game (store : GameStore) (gameId : Option (List Nat))
    (foundWords : Option (List (List Nat))) : SubmitResponse × GameStore :=
  let found_words := foundWords.getD []
  match gameId with
  | none => (.badRequest (codes "Game ID is required"), store)
  | some gid =>
    if gid = [] then (.badRequest (codes "Game ID is required"), store)
    else
      match storeLookup store gid with
      | none => (.notFound (codes "Game not found"), store)
      | some game_data =>
        let target_words := game_data.targetWords
        let normalized_target := target_words.map upperStr
        let normalized_found := found_words.map upperStr
        let correct_found := normalized_found.filter (fun w => normalized_target.contains w)
        let missed_words :=
          target_words.filter (fun w => !(normalized_found.contains (upperStr w)))
        let score : ℚ :=
          if target_words = [] then 0
          else (pyRound ((correct_found.length : ℚ) / (target_words.length : ℚ) * 100) : ℚ)
        (.ok { topic := game_data.topic
               targetWords := target_words
               foundWords := correct_found
               missedWords := missed_words
               score := score
               totalWords := target_words.length },
         storeErase store gid)

/-! ## The creation pipeline (LangGraph agent, backend variant)
    src/backend/biology_game.py:35-374 and game_api.py:30-142.
    External calls are oracles: each field is the text a call returned, or
    `none` when the call (or its surrounding `try` region) raised.  The
    `messages` chat log of `ResearchState` is omitted: no claim touches it. -/

/-- The LangGraph node names, plus the two downstream steps of the route. -/
inductive Stage where
  | researchTopic
  | findDistractors
  | generateDescriptions
  | finalize
  | gridSynthesis
  | sessionCreation
  deriving Repr, DecidableEq

/-- `ResearchState` (without the `messages` log). -/
structure ResearchState where
  topic : List Nat
  target_terms : List (List Nat)
  distractor_terms : List (List Nat)
  target_descriptions : List (List Nat × List Nat)
  distractor_descriptions : List (List Nat × List Nat)
  research_complete : Bool
  deriving Repr, DecidableEq

/-- The initial state built by `create_game_async` (game_api.py:100-106). -/
def initResearchState (topic : List Nat) : ResearchState :=
  { topic := topic
    target_terms := []
    distractor_terms := []
    target_descriptions := []
    distractor_descriptions := []
    research_complete := false }

/-- Oracle for `_research_topic` (backend lines 65-176): `content` is the page
    text the multi-attempt Wikipedia loop ended with (`none` = no attempt
    succeeded, i.e. the `raise` at line 142, or any exception earlier);
    `extraction` is the term-extraction response (`none` = the call raised). -/
structure ResearchOracle where
  content : Option (List Nat)
  extraction : Option (List Nat)
  deriving Repr

/-- The `_research_topic` node: on any exception the `except` arm returns the
    state with `target_terms = []`; otherwise TermFilter caps at 10. -/
def research_topic_node (o : ResearchOracle) (s : ResearchState) : ResearchState :=
  match o.content with
  | none => { s with target_terms := [] }
  | some _ =>
    match o.extraction with
    | none => { s with target_terms := [] }
    | some resp => { s with target_terms := termFilter resp 10 }

/-- The fixed fallback distractor terms (backend line 247, CLI line 149). -/
def fallback_distractor_terms : List (List Nat) :=
  [codes "chloroplast", codes "ribosome", codes "mitochondria",
   codes "enzyme", codes "protein", codes "molecule"]

/-- Outcome of one `wikipedia.page` call. -/
inductive FetchOutcome where
  | ok (content : List Nat)
  | disambiguation
  | pageError
  | raised
  deriving Repr

/-- Oracle for the backend `_find_distractors` (lines 178-254). -/
structure DistractorOracleB where
  /-- LLM distractor-topics response; `none` = the call raised (line 199). -/
  topicsResponse : Option (List Nat)
  /-- Randomness of `random.choice` over the parsed topics. -/
  choiceIdx : Nat
  /-- `wikipedia.search(selected_topic, results=2)`; `none` = raised. -/
  search : Option (List (List Nat))
  /-- First `wikipedia.page(search_results[0])` call. -/
  fetch : FetchOutcome
  /-- `wikipedia.page(e.options[0])` after a disambiguation. -/
  fetchDisambig : FetchOutcome
  /-- Term-extraction response; `none` = the call raised. -/
  termResponse : Option (List Nat)
  deriving Repr

/-- The backend `_find_distractors` node.  The selected topic (lines 184-203)
    only feeds the search query, which the oracle already fixes; empty search
    results yield an empty list (lines 240-242), any exception inside the
    `try` yields the fallback list (lines 244-248). -/
def find_distractors_node (o : DistractorOracleB) (s : ResearchState) : ResearchState :=
  let distractor_terms :=
    match o.search with
    | none => fallback_distractor_terms
    | some [] => []
    | some (_ :: _) =>
      let content? : Option (List Nat) :=
        match o.fetch with
        | .ok c => some (c.take 1500)
        | .disambiguation =>
          match o.fetchDisambig with
          | .ok c => some (c.take 1500)
          | _ => none
        | .pageError => none
        | .raised => none
      match content? with
      | none => fallback_distractor_terms
      | some _ =>
        match o.termResponse with
        | none => fallback_distractor_terms
        | some resp => termFilter resp 8
  { s with distractor_terms := distractor_terms }

/-- Oracle for `_generate_descriptions` (backend lines 256-362), one branch
    per term list: the parsed JSON mapping, or `none` when the generation call
    raised or the (fence-stripped) response failed to parse. -/
structure DescOracle where
  targetParsed : Option (List (List Nat × List Nat))
  distractorParsed : Option (List (List Nat × List Nat))
  deriving Repr

/-- The `_generate_descriptions` node: an empty list yields an empty map; a
    failed branch falls back to a templated description per term, each branch
    independent of the other. -/
def generate_descriptions_node (o : DescOracle) (s : ResearchState) : ResearchState :=
  let target_descriptions :=
    if s.target_terms = [] then []
    else
      match o.targetParsed with
      | some m => m
      | none => s.target_terms.map
          (fun t => (t, codes "A biological term related to " ++ s.topic))
  let distractor_descriptions :=
    if s.distractor_terms = [] then []
    else
      match o.distractorParsed with
      | some m => m
      | none => s.distractor_terms.map
          (fun t => (t, codes "A biological term from a different topic area"))
  { s with target_descriptions := target_descriptions
           distractor_descriptions := distractor_descriptions }

/-- The `_finalize_research` node. -/
def finalize_node (s : ResearchState) : ResearchState :=
  { s with research_complete := true }

/-- Oracles of one full graph invocation. -/
structure GraphOracle where
  research : ResearchOracle
  distractor : DistractorOracleB
  descriptions : DescOracle
  deriving Repr

/-- The compiled graph (`_build_graph`, backend lines 46-63): the four nodes
    in sequence along the unconditional edges, together with the list of
    executed nodes. -/
def run_graph (o : GraphOracle) (s0 : ResearchState) : ResearchState × List Stage :=
  let s1 := research_topic_node o.research s0
  let s2 := find_distractors_node o.distractor s1
  let s3 := generate_descriptions_node o.descriptions s2
  let s4 := finalize_node s3
  (s4, [Stage.researchTopic, Stage.findDistractors, Stage.generateDescriptions, Stage.finalize])

/-- The dict returned by `create_game_async` (game_api.py:136-142). -/
structure GameData where
  gameId : List Nat
  topic : List Nat
  targetWords : List (List Nat)
  distractorWords : List (List Nat)
  grid : List (List Nat)
  deriving Repr, DecidableEq

/-- Oracles of one creation request: the graph oracles, the grid-generation
    response (already split into lines), the RNG stream of the repair, and the
    12-character id drawn at game_api.py:132. -/
structure CreateOracle where
  graph : GraphOracle
  gridResponseLines : List (List Nat)
  rng : Nat → Nat
  gameId : List Nat

/-- `create_game_async` (game_api.py:93-142) with the executed stages: run the
    graph, fail when no target terms were found (the `raise` at line 122),
    otherwise synthesize the grid and assemble the game data. -/
def create_game_async (o : CreateOracle) (topic : List Nat) :
    Except (List Nat) GameData × List Stage :=
  let (st, trace) := run_graph o.graph (initResearchState topic)
  let target_words := st.target_terms
  let distractor_words := st.distractor_terms
  if target_words = [] then
    (.error (codes "LangGraph agents failed to find terms for the topic"), trace)
  else
    (.ok { gameId := o.gameId
           topic := topic
           targetWords := target_words
           distractorWords := distractor_words
           grid := generate_grid o.rng o.gridResponseLines 15 },
     trace ++ [Stage.gridSynthesis])

/-- The 200-body of `/api/game/create` (game_api.py:76-81): exactly the four
    fields `gameId`, `topic`, `grid`, `totalTargetWords`. -/
structure CreateResponse where
  gameId : List Nat
  topic : List Nat
  grid : List (List Nat)
  totalTargetWords : Nat
  deriving Repr, DecidableEq

/-- Lines 76-81: the response dict built from the game data. -/
def create_response (gd : GameData) : CreateResponse :=
  { gameId := gd.gameId
    topic := gd.topic
    grid := gd.grid
    totalTargetWords := gd.targetWords.length }

/-- The `/api/game/create` route (game_api.py:30-91): validate the topic, run
    the pipeline, store the full game data, answer with `create_response`;
    a pipeline error becomes a 500.  Output: (status, body), new store,
    executed stages. -/
def create_game (o : CreateOracle) (topic? : Option (List Nat)) (store : GameStore) :
    (Nat × Option CreateResponse) × GameStore × List Stage :=
  match topic? with
  | none => ((400, none), store, [])
  | some topic =>
    if topic = [] then ((400, none), store, [])
    else
      match create_game_async o topic with
      | (.error _, trace) => ((500, none), store, trace)
      | (.ok gd, trace) =>
        ((200, some (create_response gd)),
         storeInsert store gd.gameId
           { topic := gd.topic
             targetWords := gd.targetWords
             distractorWords := gd.distractorWords
             grid := gd.grid },
         trace ++ [Stage.sessionCreation])

/-! ## DistractorSelector, CLI variant (src/biology_game.py:110-155) -/

/-- The fixed catalogue of candidate distractor topics (CLI lines 115-119). -/
def distractor_topics : List (List Nat) :=
  [codes "plant photosynthesis", codes "bacterial reproduction", codes "insect anatomy",
   codes "marine biology", codes "cellular respiration", codes "genetic mutation",
   codes "viral structure", codes "fungal growth", codes "bird migration",
   codes "reptile metabolism"]

/-- CLI line 122: drop the catalogue topics sharing a (substring-matched)
    lowercase token with the main topic. -/
def cliFilteredTopics (topic : List Nat) : List (List Nat) :=
  distractor_topics.filter
    (fun t => !((pySplitWS (lowerStr topic)).any (fun word => isSub word (lowerStr t))))

/-- Oracle for the CLI `_find_distractors`: search / fetch / generation, each
    `none` when the call raised (any such exception reaches the bare
    `except` at line 147). -/
structure DistractorOracleCli where
  choiceIdx : Nat
  search : Option (List (List Nat))
  fetch : Option (List Nat)
  termResponse : Option (List Nat)
  deriving Repr

/-- The CLI `_find_distractors` (lines 110-155), returning `none` when the
    node raises: `random.choice(filtered_topics[:3])` at line 123 sits outside
    the `try` and raises `IndexError` on an empty candidate list.  Inside the
    `try`: empty search results yield `[]` (lines 144-145), an exception
    yields the fallback list (lines 147-149). -/
def find_distractors_cli (topic : List Nat) (o : DistractorOracleCli) :
    Option (List (List Nat)) :=
  match pyChoice o.choiceIdx ((cliFilteredTopics topic).take 3) with
  | none => none
  | some _selected =>
    some (match o.search with
      | none => fallback_distractor_terms
      | some [] => []
      | some (_ :: _) =>
        match o.fetch with
        | none => fallback_distractor_terms
        | some _content =>
          match o.termResponse with
          | none => fallback_distractor_terms
          | some resp => termFilter resp 8)

/-- A creation-request oracle where the research stage fails (no Wikipedia
    content was found), used to exercise the empty-term-list path. -/
def failedResearchOracle : CreateOracle :=
  { graph :=
      { research := { content := none, extraction := none }
        distractor :=
          { topicsResponse := none, choiceIdx := 0, search := none,
            fetch := .raised, fetchDisambig := .raised, termResponse := none }
        descriptions := { targetParsed := none, distractorParsed := none } }
    gridResponseLines := []
    rng := fun _ => 0
    gameId := codes "abc123def456" }

/-- A distractor-stage oracle where the Wikipedia search returns no results
    and every later call would raise. -/
def emptySearchOracle : DistractorOracleCli :=
  { choiceIdx := 0, search := some [], fetch := none, termResponse := none }

/-! ## Lemmas about the grid repair -/

theorem upperChar_bound {c : Nat} (h : isalpha c = true) :
    65 ≤ upperChar c ∧ upperChar c ≤ 90 := by
  simp only [isalpha, Bool.or_eq_true, Bool.and_eq_true, decide_eq_true_eq] at h
  simp only [upperChar]
  split <;> rename_i h' <;>
    simp only [Bool.and_eq_true, decide_eq_true_eq] at h' <;> omega

theorem randLetter_bound (g : Nat → Nat) (k : Nat) :
    65 ≤ randLetter g k ∧ randLetter g k ≤ 90 := by
  simp only [randLetter]; omega

theorem stripRow_bound {line : List Nat} {c : Nat} (hc : c ∈ stripRow line) :
    65 ≤ c ∧ c ≤ 90 := by
  simp only [stripRow, List.mem_map, List.mem_filter] at hc
  obtain ⟨a, ⟨-, ha⟩, rfl⟩ := hc
  exact upperChar_bound ha

theorem randRow_length (g : Nat → Nat) (off size : Nat) :
    (randRow g off size).length = size := by
  simp [randRow]

theorem randRow_bound {g : Nat → Nat} {off size c : Nat}
    (hc : c ∈ randRow g off size) : 65 ≤ c ∧ c ≤ 90 := by
  simp only [randRow, List.mem_map] at hc
  obtain ⟨i, -, rfl⟩ := hc
  exact randLetter_bound g _

/-- The collection loop is the spec-side filter/truncate/cut-off pipeline. -/
theorem collectRows_eq (size : Nat) :
    ∀ (lines : List (List Nat)) (acc : List (List Nat)), acc.length ≤ size →
      collectRows size acc lines =
        (acc ++ ((lines.map stripRow).filter (fun r => decide (size ≤ r.length))).map
            (fun r => r.take size)).take size
  | [], acc, hacc => by
    simp only [collectRows, List.map_nil, List.filter_nil, List.map_nil, List.append_nil]
    exact (List.take_of_length_le hacc).symm
  | line :: rest, acc, hacc => by
    simp only [collectRows, List.map_cons, List.filter_cons]
    by_cases hfull : size ≤ acc.length
    · have hlen : acc.length = size := Nat.le_antisymm hacc hfull
      rw [if_pos hfull]
      exact (List.take_left' hlen).symm
    · rw [if_neg hfull]
      by_cases hrow : size ≤ (stripRow line).length
      · simp only [hrow, decide_True, if_true, List.map_cons]
        rw [collectRows_eq size rest (acc ++ [(stripRow line).take size])
            (by simp; omega)]
        simp
      · simp only [hrow, decide_False, if_false]
        exact collectRows_eq size rest acc hacc

theorem padRow_of_length_eq {g : Nat → Nat} {off size : Nat} {row : List Nat}
    (h : row.length = size) : padRow g off size row = row := by
  simp only [padRow, h, Nat.sub_self, List.range_zero, List.map_nil,
    List.append_nil]
  exact List.take_of_length_le (Nat.le_of_eq h)

theorem padAll_of_all_length_eq {g : Nat → Nat} {size : Nat} :
    ∀ {l : List (List Nat)} (i : Nat), (∀ r ∈ l, r.length = size) →
      padAll g size i l = l
  | [], _, _ => rfl
  | row :: rest, i, h => by
    simp only [padAll]
    rw [padRow_of_length_eq (h row (by simp)),
      padAll_of_all_length_eq (i + 1) (fun r hr => h r (by simp [hr]))]

/-- Every row accepted by the spec-side pipeline has exactly `size` cells of
    uppercase letters. -/
theorem specAcceptedRows_good {size : Nat} {lines : List (List Nat)}
    {row : List Nat} (h : row ∈ specAcceptedRows size lines) :
    row.length = size ∧ ∀ c ∈ row, 65 ≤ c ∧ c ≤ 90 := by
  simp only [specAcceptedRows] at h
  have h' := List.mem_of_mem_take h
  simp only [List.mem_map, List.mem_filter, List.mem_map, decide_eq_true_eq] at h'
  obtain ⟨r, ⟨⟨l, -, rfl⟩, hlen⟩, rfl⟩ := h'
  refine ⟨by simp [List.length_take]; omega, fun c hc => stripRow_bound (List.mem_of_mem_take hc)⟩

theorem specAcceptedRows_length_le (size : Nat) (lines : List (List Nat)) :
    (specAcceptedRows size lines).length ≤ size := by
  simp only [specAcceptedRows]
  exact (List.length_take _ _).trans_le (Nat.min_le_left _ _)

/-- Characterization of the whole repair routine: the accepted rows in order,
    then enough whole random rows to reach `size`. -/
theorem generate_grid_eq (g : Nat → Nat) (lines : List (List Nat)) (size : Nat) :
    generate_grid g lines size =
      specAcceptedRows size lines ++
        (List.range (size - (specAcceptedRows size lines).length)).map
          (fun r => randRow g (size * r) size) := by
  unfold generate_grid
  rw [collectRows_eq size lines [] (Nat.zero_le size)]
  simp only [List.nil_append]
  rw [show ((((lines.map stripRow).filter (fun r => decide (size ≤ r.length))).map
      (fun r => r.take size)).take size) = specAcceptedRows size lines from rfl]
  apply padAll_of_all_length_eq
  intro r hr
  rcases List.mem_append.mp hr with h | h
  · exact (specAcceptedRows_good h).1
  · obtain ⟨i, -, rfl⟩ := List.mem_map.mp h
    exact randRow_length g _ size

/-! ## Auxiliary lemmas -/

theorem pyRound_zero : pyRound 0 = 0 := by
  unfold pyRound
  norm_num

theorem pyRound1_zero : pyRound1 0 = 0 := by
  unfold pyRound1
  norm_num [pyRound_zero]

theorem count_filter_eq {α : Type} [BEq α] [LawfulBEq α] (l : List α) (p : α → Bool) (w : α) :
    (l.filter p).count w = if p w then l.count w else 0 := by
  induction l with
  | nil => simp
  | cons a t ih =>
    by_cases hp : p a <;> by_cases hw : a = w <;>
      simp_all [List.filter_cons, List.count_cons]

theorem storeLookup_storeErase (s : GameStore) (gid : List Nat) :
    storeLookup (storeErase s gid) gid = none := by
  have h : List.find? (fun p => p.1 == gid) (storeErase s gid) = none := by
    rw [List.find?_eq_none]
    intro p hp
    have h2 := (List.mem_filter.mp hp).2
    simpa using h2
  simp [storeLookup, h]

theorem pyChoice_of_ne_nil {α : Type} {l : List α} (h : l ≠ []) (idx : Nat) :
    ∃ a, pyChoice idx l = some a := by
  have hlen : 0 < l.length := List.length_pos.mpr h
  have hmod : idx % l.length < l.length := Nat.mod_lt _ hlen
  exact ⟨_, List.get?_eq_get hmod⟩

/-! ## Claim theorems -/

/-! ## Lemmas about the Unicode-faithful repair -/

theorem collectRowsU_length_le (u : UnicodeTables) (size : Nat) :
    ∀ (lines : List (List Nat)) (acc : List (List (List Nat))), acc.length ≤ size →
      (collectRowsU u size acc lines).length ≤ size
  | [], _, h => h
  | line :: rest, acc, h => by
    simp only [collectRowsU]
    by_cases hfull : size ≤ acc.length
    · rw [if_pos hfull]
      exact h
    · rw [if_neg hfull]
      by_cases hrow : size ≤ (stripRowU u line).length
      · rw [if_pos hrow]
        exact collectRowsU_length_le u size rest _ (by simp; omega)
      · rw [if_neg hrow]
        exact collectRowsU_length_le u size rest acc h

theorem collectRowsU_mem (u : UnicodeTables) (size : Nat) :
    ∀ (lines : List (List Nat)) (acc : List (List (List Nat))) (r : List (List Nat)),
      r ∈ collectRowsU u size acc lines →
      r ∈ acc ∨ ∃ line, line ∈ lines ∧ size ≤ (stripRowU u line).length ∧
        r = (stripRowU u line).take size
  | [], _, r, h => Or.inl h
  | line :: rest, acc, r, h => by
    simp only [collectRowsU] at h
    by_cases hfull : size ≤ acc.length
    · rw [if_pos hfull] at h
      exact Or.inl h
    · rw [if_neg hfull] at h
      by_cases hrow : size ≤ (stripRowU u line).length
      · rw [if_pos hrow] at h
        rcases collectRowsU_mem u size rest _ r h with hin | ⟨l, hl, hr1, hr2⟩
        · rcases List.mem_append.mp hin with h1 | h1
          · exact Or.inl h1
          · simp only [List.mem_singleton] at h1
            exact Or.inr ⟨line, by simp, hrow, h1⟩
        · exact Or.inr ⟨l, by simp [hl], hr1, hr2⟩
      · rw [if_neg hrow] at h
        rcases collectRowsU_mem u size rest acc r h with h1 | ⟨l, hl, hr1, hr2⟩
        · exact Or.inl h1
        · exact Or.inr ⟨l, by simp [hl], hr1, hr2⟩

theorem padRowU_length (g : Nat → Nat) (off size : Nat) (row : List (List Nat)) :
    (padRowU g off size row).length = size := by
  simp only [padRowU, List.length_take, List.length_append, List.length_map,
    List.length_range]
  omega

theorem padAllU_length {g : Nat → Nat} {size : Nat} :
    ∀ (l : List (List (List Nat))) (i : Nat), (padAllU g size i l).length = l.length
  | [], _ => rfl
  | _ :: t, i => by simp [padAllU, padAllU_length t (i + 1)]

theorem padAllU_mem {g : Nat → Nat} {size : Nat} :
    ∀ {l : List (List (List Nat))} {i : Nat} {r : List (List Nat)},
      r ∈ padAllU g size i l → ∃ row, row ∈ l ∧ ∃ off, r = padRowU g off size row := by
  intro l
  induction l with
  | nil => intro i r h; simp [padAllU] at h
  | cons a t ih =>
    intro i r h
    simp only [padAllU, List.mem_cons] at h
    rcases h with rfl | h
    · exact ⟨a, by simp, _, rfl⟩
    · obtain ⟨row, hrow, off, rfl⟩ := ih h
      exact ⟨row, by simp [hrow], off, rfl⟩

theorem padRowU_cell_cases {g : Nat → Nat} {off size : Nat} {row : List (List Nat)}
    {cell : List Nat} (h : cell ∈ padRowU g off size row) :
    cell ∈ row ∨ ∃ k, cell = [randLetter g k] := by
  have h' := List.mem_of_mem_take h
  rcases List.mem_append.mp h' with h1 | h1
  · exact Or.inl h1
  · obtain ⟨i, -, rfl⟩ := List.mem_map.mp h1
    exact Or.inr ⟨off + i, rfl⟩

/-- On ASCII input, with character tables agreeing with ASCII on ASCII, every
    parsed cell is a single uppercase letter. -/
theorem stripRowU_cells {u : UnicodeTables} {line cell : List Nat}
    (hcell : cell ∈ stripRowU u line)
    (hascii : ∀ c ∈ line, c < 128)
    (htab : ∀ c, c < 128 → u.isalpha c = isalpha c ∧ u.upper c = [upperChar c]) :
    ∃ c, cell = [c] ∧ 65 ≤ c ∧ c ≤ 90 := by
  simp only [stripRowU, List.mem_map, List.mem_filter] at hcell
  obtain ⟨a, ⟨ha, halpha⟩, rfl⟩ := hcell
  have hlt := hascii a ha
  obtain ⟨h1, h2⟩ := htab a hlt
  rw [h1] at halpha
  rw [h2]
  exact ⟨upperChar a, rfl, upperChar_bound halpha⟩

/-- C1 counterexample: under the real Unicode semantics of `str.isalpha` and
    `str.upper`, a response line of 15 `é` characters is accepted by the
    repair and produces a first row of `É` cells (code point 201, outside
    A–Z), and a line of 15 `ß` characters produces two-character `SS` cells —
    so the grid is not always made of single characters in A–Z. -/
theorem C1_counterexample :
    (generate_gridU latin1Tables (fun _ => 0) [List.replicate 15 233] 15).head? =
      some (List.replicate 15 [201]) ∧
    (∀ c : Nat, ¬(([201] : List Nat) = [c] ∧ 65 ≤ c ∧ c ≤ 90)) ∧
    (generate_gridU latin1Tables (fun _ => 0) [List.replicate 15 223] 15).head? =
      some (List.replicate 15 [83, 83]) ∧
    ([83, 83] : List Nat).length ≠ 1 := by
  refine ⟨by decide, ?_, by decide, by decide⟩
  rintro c ⟨hc, hge, hle⟩
  simp only [List.cons.injEq, and_true] at hc
  omega

/-- C1 (amended): the repair never fails and always returns exactly `N` rows
    of exactly `N` cells, for every character table, response and RNG stream;
    and every cell is a single character in A–Z whenever the response is
    ASCII (with the character tables agreeing with ASCII there) — a non-ASCII
    letter, however, is kept as its Unicode upper-case, which may lie outside
    A–Z or have several characters. -/
theorem C1_amended_grid_shape (u : UnicodeTables) (g : Nat → Nat)
    (lines : List (List Nat)) (size : Nat) :
    ((generate_gridU u g lines size).length = size ∧
      ∀ row ∈ generate_gridU u g lines size, row.length = size) ∧
    ((∀ c, c < 128 → u.isalpha c = isalpha c ∧ u.upper c = [upperChar c]) →
      (∀ line ∈ lines, ∀ c ∈ line, c < 128) →
      ∀ row ∈ generate_gridU u g lines size, ∀ cell ∈ row,
        ∃ c, cell = [c] ∧ 65 ≤ c ∧ c ≤ 90) := by
  simp only [generate_gridU]
  constructor
  · constructor
    · rw [padAllU_length, List.length_append, List.length_map, List.length_range]
      have := collectRowsU_length_le u size lines [] (by simp)
      omega
    · intro row hrow
      obtain ⟨row0, -, off, rfl⟩ := padAllU_mem hrow
      exact padRowU_length g off size row0
  · intro htab hascii row hrow cell hcell
    obtain ⟨row0, hrow0, off, rfl⟩ := padAllU_mem hrow
    rcases padRowU_cell_cases hcell with hc | ⟨k, rfl⟩
    · rcases List.mem_append.mp hrow0 with h1 | h1
      · rcases collectRowsU_mem u size lines [] row0 h1 with h2 | ⟨l, hl, -, rfl⟩
        · simp at h2
        · exact stripRowU_cells (List.mem_of_mem_take hc) (hascii l hl) htab
      · obtain ⟨i, -, rfl⟩ := List.mem_map.mp h1
        obtain ⟨j, -, rfl⟩ := List.mem_map.mp hc
        exact ⟨_, rfl, randLetter_bound g _⟩
    · exact ⟨_, rfl, randLetter_bound g _⟩

/-- Witness for C1 (amended): on a concrete ASCII response with the concrete
    table fragment, every cell of the repaired grid is a single uppercase
    letter. -/
theorem C1_amended_grid_shape_witness :
    ∀ row ∈ generate_gridU latin1Tables (fun _ => 0) [codes "abcdefghijklmno"] 15,
      ∀ cell ∈ row, ∃ c, cell = [c] ∧ 65 ≤ c ∧ c ≤ 90 :=
  (C1_amended_grid_shape latin1Tables (fun _ => 0) [codes "abcdefghijklmno"] 15).2
    (by decide) (by decide)

/-- C2: the repair step processes response lines in order — each line stripped of
    non-alphabetic characters and upper-cased, lines with fewer than `N`
    letters discarded, lines with at least `N` letters truncated to `N` and
    accepted, consumption stopping at `N` accepted rows — and random rows are
    appended after the parsed ones; in particular 3 valid `N`-length lines
    with `N = 15` give those 3 rows followed by 12 random rows, in order. -/
theorem C2_repair_processing_order (g : Nat → Nat) (lines : List (List Nat)) (size : Nat) :
    (generate_grid g lines size =
      specAcceptedRows size lines ++
        (List.range (size - (specAcceptedRows size lines).length)).map
          (fun r => randRow g (size * r) size)) ∧
    (∀ l1 l2 l3 : List Nat,
      (stripRow l1).length = 15 → (stripRow l2).length = 15 → (stripRow l3).length = 15 →
      generate_grid g [l1, l2, l3] 15 =
        [stripRow l1, stripRow l2, stripRow l3] ++
          (List.range 12).map (fun r => randRow g (15 * r) 15)) := by
  refine ⟨generate_grid_eq g lines size, fun l1 l2 l3 h1 h2 h3 => ?_⟩
  rw [generate_grid_eq]
  have hacc : specAcceptedRows 15 [l1, l2, l3] = [stripRow l1, stripRow l2, stripRow l3] := by
    simp [specAcceptedRows, h1, h2, h3, List.take_of_length_le]
  rw [hacc]
  norm_num

/-- Witness for C2: three lines of 15 letters each are kept as the first three
    rows, with 12 random rows appended. -/
theorem C2_repair_processing_order_witness :
    generate_grid (fun _ => 0)
        [codes "abcdefghijklmno", codes "abcdefghijklmno", codes "abcdefghijklmno"] 15 =
      [stripRow (codes "abcdefghijklmno"), stripRow (codes "abcdefghijklmno"),
       stripRow (codes "abcdefghijklmno")] ++
        (List.range 12).map (fun r => randRow (fun _ => 0) (15 * r) 15) :=
  (C2_repair_processing_order (fun _ => 0) [] 15).2 _ _ _
    (by decide) (by decide) (by decide)

/-- C8: the term filter splits on commas, trims each piece and keeps only
    pieces of length 4–14, truncated to the cap; hence every returned term has
    length between 4 and 14 and the result never exceeds the cap. -/
theorem C8_term_filter_bounds (response : List Nat) (cap : Nat) :
    (∀ t ∈ termFilter response cap, 4 ≤ t.length ∧ t.length ≤ 14) ∧
    (termFilter response cap).length ≤ cap := by
  constructor
  · intro t ht
    have ht' := List.mem_of_mem_take ht
    have hmem := (List.mem_filter.mp ht').2
    simp only [Bool.and_eq_true, decide_eq_true_eq] at hmem
    omega
  · unfold termFilter
    exact (List.length_take _ _).trans_le (Nat.min_le_left _ _)

/-- C3 counterexample: for target `["Mitochondria"]` and found
    `["mitochondria"]`, the code's `correctFound` is the *upper-cased*
    `["MITOCHONDRIA"]`, not the original submitted case `["mitochondria"]`
    the claim requires. -/
theorem C3_counterexample :
    (calculate_results [codes "Mitochondria"] [codes "mitochondria"]).correct_found
        = [codes "MITOCHONDRIA"] ∧
    (calculate_results [codes "Mitochondria"] [codes "mitochondria"]).correct_found
        ≠ [codes "mitochondria"] :=
  ⟨by decide, by decide⟩

/-- C3 (amended): `correctFound` is the **upper-cased** found terms whose
    upper-cased form appears among the upper-cased targets, preserving
    found-list order (a sublist of the upper-cased found list) and keeping
    duplicates as submitted (counts preserved); `missedTerms` is the target
    terms in original case whose upper-cased form is absent from the
    upper-cased found terms. -/
theorem C3_amended_scoring_lists (target found : List (List Nat)) :
    (calculate_results target found).correct_found =
        (found.map upperStr).filter (fun w => (target.map upperStr).contains w) ∧
    List.Sublist (calculate_results target found).correct_found (found.map upperStr) ∧
    (∀ w, ((calculate_results target found).correct_found).count w =
        if w ∈ target.map upperStr then (found.map upperStr).count w else 0) ∧
    (calculate_results target found).missed_words =
        target.filter (fun w => !((found.map upperStr).contains (upperStr w))) ∧
    (∀ w, w ∈ (calculate_results target found).missed_words ↔
        w ∈ target ∧ upperStr w ∉ found.map upperStr) := by
  refine ⟨rfl, List.filter_sublist _, ?_, rfl, ?_⟩
  · intro w
    show ((found.map upperStr).filter _).count w = _
    rw [count_filter_eq]
    by_cases hw : w ∈ target.map upperStr <;> simp [hw]
  · intro w
    show w ∈ target.filter _ ↔ _
    rw [List.mem_filter]
    by_cases hw : upperStr w ∈ found.map upperStr <;> simp [hw]

/-- C4 counterexample: with 3 target terms and 1 correct found term, the
    submit route returns the integer `round(100/3) = 33`, while the claimed
    `round(100/3, 1)` is `33.3`; the returned score is not the one-decimal
    rounding. -/
theorem C4_counterexample :
    (((submit_game
        [(codes "g1",
          { topic := codes "cell",
            targetWords := [codes "cell", codes "wall", codes "gene"],
            distractorWords := [], grid := [] })]
        (some (codes "g1")) (some [codes "CELL"])).1).score) = some 33 ∧
    pyRound1 ((1 : ℚ) / 3 * 100) = 333 / 10 ∧
    ((33 : ℚ) ≠ 333 / 10) ∧
    (((submit_game
        [(codes "g1",
          { topic := codes "cell",
            targetWords := [codes "cell", codes "wall", codes "gene"],
            distractorWords := [], grid := [] })]
        (some (codes "g1")) (some [codes "CELL"])).1).score) ≠
      some (pyRound1 ((1 : ℚ) / 3 * 100)) := by
  have hval : (((1 : ℕ) : ℚ) / ((3 : ℕ) : ℚ) * 100) = 100 / 3 := by
    push_cast
    ring
  have h : (((submit_game
      [(codes "g1",
        { topic := codes "cell",
          targetWords := [codes "cell", codes "wall", codes "gene"],
          distractorWords := [], grid := [] })]
      (some (codes "g1")) (some [codes "CELL"])).1).score) =
        some ((pyRound (((1 : ℕ) : ℚ) / ((3 : ℕ) : ℚ) * 100) : ℤ) : ℚ) := rfl
  have h33 : pyRound (((1 : ℕ) : ℚ) / ((3 : ℕ) : ℚ) * 100) = 33 := by
    rw [hval]
    unfold pyRound
    norm_num [Int.floor_eq_iff]
  have h333 : pyRound1 ((1 : ℚ) / 3 * 100) = 333 / 10 := by
    unfold pyRound1 pyRound
    norm_num [Int.floor_eq_iff]
  refine ⟨?_, h333, by norm_num, ?_⟩
  · rw [h, h33]
    norm_num
  · rw [h, h33, h333]
    simp only [ne_eq, Option.some.injEq]
    norm_num

/-- C4 (amended): `submit_game` returns the score rounded to the **nearest
    integer** (Python `round`, ties to even), not to one decimal place;
    `BiologyGame.calculate_results` does round to one decimal; both return 0
    for an empty target list with no division by zero. -/
theorem C4_amended_score_rounding (target found : List (List Nat)) :
    ((calculate_results target found).score =
        if target = [] then 0
        else pyRound1 ((((found.map upperStr).filter
            (fun w => (target.map upperStr).contains w)).length : ℚ) /
            (target.length : ℚ) * 100)) ∧
    (target = [] → (calculate_results target found).score = 0) ∧
    (∀ (store : GameStore) (gid : List Nat) (game : StoredGame)
        (fw : Option (List (List Nat))),
      gid ≠ [] → storeLookup store gid = some game →
      ((submit_game store (some gid) fw).1).score =
        some (if game.targetWords = [] then 0
          else (pyRound (((((fw.getD []).map upperStr).filter
              (fun w => (game.targetWords.map upperStr).contains w)).length : ℚ) /
              (game.targetWords.length : ℚ) * 100) : ℚ))) := by
  refine ⟨?_, ?_, ?_⟩
  · by_cases ht : target = []
    · simp [calculate_results, ht, pyRound1_zero]
    · simp [calculate_results, ht]
  · intro ht
    simp [calculate_results, ht, pyRound1_zero]
  · intro store gid game fw hgid hlook
    simp [submit_game, hgid, hlook, SubmitResponse.score]

/-- Witness for C4 (amended): a concrete consumed store entry with one found
    word out of three targets. -/
theorem C4_amended_score_rounding_witness :
    ((submit_game
        [(codes "g1",
          { topic := codes "cell",
            targetWords := [codes "cell", codes "wall", codes "gene"],
            distractorWords := [], grid := [] })]
        (some (codes "g1")) (some [codes "CELL"])).1).score =
      some (if ([codes "cell", codes "wall", codes "gene"] : List (List Nat)) = [] then 0
        else (pyRound ((((((some [codes "CELL"] : Option (List (List Nat))).getD []).map
            upperStr).filter
            (fun w => (([codes "cell", codes "wall", codes "gene"] : List (List Nat)).map
              upperStr).contains w)).length : ℚ) /
            (([codes "cell", codes "wall", codes "gene"] : List (List Nat)).length : ℚ)
            * 100) : ℚ)) :=
  (C4_amended_score_rounding [codes "cell", codes "wall", codes "gene"] []).2.2
    [(codes "g1",
      { topic := codes "cell",
        targetWords := [codes "cell", codes "wall", codes "gene"],
        distractorWords := [], grid := [] })]
    (codes "g1")
    { topic := codes "cell",
      targetWords := [codes "cell", codes "wall", codes "gene"],
      distractorWords := [], grid := [] }
    (some [codes "CELL"]) (by decide) (by decide)

/-- C5 counterexample: when research finds no content (so the target term
    list is empty), the later distractor-selection and description stages
    still execute — the graph's edges are unconditional — even though the
    request then fails with a 500. -/
theorem C5_counterexample :
    Stage.findDistractors ∈ (create_game failedResearchOracle (some (codes "cell")) []).2.2 ∧
    Stage.generateDescriptions ∈
      (create_game failedResearchOracle (some (codes "cell")) []).2.2 ∧
    (create_game failedResearchOracle (some (codes "cell")) []).1.1 = 500 :=
  ⟨by decide, by decide, by decide⟩

/-- C5 (amended): when the research stage yields an empty target term list,
    the graph still runs distractor selection, description annotation and
    finalize (its edges are unconditional); `create_game_async` then raises,
    so the request fails with a generic 500 — not a machine-readable
    `NoTermsFound` kind — before grid synthesis and session creation, and the
    store is unchanged. -/
theorem C5_amended_empty_terms_path (o : CreateOracle) (topic : List Nat)
    (store : GameStore) (htopic : topic ≠ [])
    (hempty : (research_topic_node o.graph.research (initResearchState topic)).target_terms
      = []) :
    (create_game o (some topic) store).1.1 = 500 ∧
    (create_game o (some topic) store).2.1 = store ∧
    (create_game o (some topic) store).2.2 =
      [Stage.researchTopic, Stage.findDistractors, Stage.generateDescriptions,
       Stage.finalize] ∧
    Stage.gridSynthesis ∉ (create_game o (some topic) store).2.2 ∧
    Stage.sessionCreation ∉ (create_game o (some topic) store).2.2 := by
  have hred : create_game o (some topic) store =
      ((500, none), store,
        [Stage.researchTopic, Stage.findDistractors, Stage.generateDescriptions,
         Stage.finalize]) := by
    simp only [create_game, create_game_async, run_graph, if_neg htopic,
      finalize_node, generate_descriptions_node, find_distractors_node]
    simp [hempty]
  rw [hred]
  exact ⟨rfl, rfl, rfl, by simp, by simp⟩

/-- Witness for C5 (amended): the failed-research oracle yields a 500 with
    exactly the four graph stages executed. -/
theorem C5_amended_empty_terms_path_witness :
    (create_game failedResearchOracle (some (codes "cell")) []).1.1 = 500 ∧
    (create_game failedResearchOracle (some (codes "cell")) []).2.1 = [] ∧
    (create_game failedResearchOracle (some (codes "cell")) []).2.2 =
      [Stage.researchTopic, Stage.findDistractors, Stage.generateDescriptions,
       Stage.finalize] ∧
    Stage.gridSynthesis ∉ (create_game failedResearchOracle (some (codes "cell")) []).2.2 ∧
    Stage.sessionCreation ∉ (create_game failedResearchOracle (some (codes "cell")) []).2.2 :=
  C5_amended_empty_terms_path failedResearchOracle (codes "cell") []
    (by decide) (by decide)

/-- C6 counterexample: with search returning an empty result list the CLI
    distractor stage returns the empty term list, not the fixed fallback; and
    for a topic overlapping every catalogue entry, `random.choice` on the
    empty candidate list raises an uncaught `IndexError` (modelled `none`). -/
theorem C6_counterexample :
    find_distractors_cli (codes "cell") emptySearchOracle = some [] ∧
    (some ([] : List (List Nat)) ≠ some fallback_distractor_terms) ∧
    find_distractors_cli
        (codes "plant bacterial insect marine cellular genetic viral fungal bird reptile")
        emptySearchOracle = none :=
  ⟨by decide, by decide, by decide⟩

/-- C6 (amended): when topic selection succeeds, an exception in the search,
    fetch or generation call yields the fixed fallback list and the stage does
    not raise; but **empty search results** yield an empty term list, not the
    fallback; and when every catalogue topic shares a token with the main
    topic, topic selection itself raises an uncaught error. -/
theorem C6_amended_distractor_fallback (topic : List Nat) (o : DistractorOracleCli) :
    ((cliFilteredTopics topic).take 3 = [] → find_distractors_cli topic o = none) ∧
    ((cliFilteredTopics topic).take 3 ≠ [] →
      (o.search = none → find_distractors_cli topic o = some fallback_distractor_terms) ∧
      (o.search = some [] → find_distractors_cli topic o = some []) ∧
      (∀ r rs, o.search = some (r :: rs) → o.fetch = none →
        find_distractors_cli topic o = some fallback_distractor_terms) ∧
      (∀ r rs c, o.search = some (r :: rs) → o.fetch = some c →
          o.termResponse = none →
        find_distractors_cli topic o = some fallback_distractor_terms) ∧
      (∀ r rs c resp, o.search = some (r :: rs) → o.fetch = some c →
          o.termResponse = some resp →
        find_distractors_cli topic o = some (termFilter resp 8))) := by
  constructor
  · intro h
    simp [find_distractors_cli, h, pyChoice]
  · intro h
    obtain ⟨sel, hsel⟩ := pyChoice_of_ne_nil h o.choiceIdx
    refine ⟨fun hs => ?_, fun hs => ?_, fun r rs hs hf => ?_,
      fun r rs c hs hf ht => ?_, fun r rs c resp hs hf ht => ?_⟩ <;>
      simp [find_distractors_cli, hsel, hs]
    · simp [hf]
    · simp [hf, ht]
    · simp [hf, ht]

/-- Witness for C6 (amended): for the topic `cell` the candidate list is
    non-empty, and empty search results give the empty term list. -/
theorem C6_amended_distractor_fallback_witness :
    find_distractors_cli (codes "cell") emptySearchOracle = some [] :=
  ((C6_amended_distractor_fallback (codes "cell") emptySearchOracle).2
    (by decide)).2.1 rfl

/-- C7: session consumption is at-most-once — once a submission for a gameId
    answers 200 (consuming the session), a lookup finds no session and any
    second submission for the same gameId answers 404. -/
theorem C7_session_consumed_once (store : GameStore) (gid : List Nat)
    (fw fw' : Option (List (List Nat)))
    (h : ((submit_game store (some gid) fw).1).status = 200) :
    storeLookup (submit_game store (some gid) fw).2 gid = none ∧
    ((submit_game (submit_game store (some gid) fw).2 (some gid) fw').1).status = 404 := by
  by_cases hgid : gid = []
  · exfalso
    simp [submit_game, hgid, SubmitResponse.status] at h
  · cases hlook : storeLookup store gid with
    | none =>
      exfalso
      simp [submit_game, hgid, hlook, SubmitResponse.status] at h
    | some game =>
      have hstore : (submit_game store (some gid) fw).2 = storeErase store gid := by
        simp [submit_game, hgid, hlook]
      rw [hstore]
      exact ⟨storeLookup_storeErase store gid,
        by simp [submit_game, hgid, storeLookup_storeErase, SubmitResponse.status]⟩

/-- Witness for C7: a concrete store with one session, submitted twice. -/
theorem C7_session_consumed_once_witness :
    storeLookup
      (submit_game
        [(codes "g", { topic := codes "cell", targetWords := [codes "wall"],
                       distractorWords := [], grid := [] })]
        (some (codes "g")) none).2 (codes "g") = none ∧
    ((submit_game
        (submit_game
          [(codes "g", { topic := codes "cell", targetWords := [codes "wall"],
                         distractorWords := [], grid := [] })]
          (some (codes "g")) none).2
        (some (codes "g")) none).1).status = 404 :=
  C7_session_consumed_once
    [(codes "g", { topic := codes "cell", targetWords := [codes "wall"],
                   distractorWords := [], grid := [] })]
    (codes "g") none none (by decide)

/-- C9: the creation response is built from the game id, topic, grid and the
    *number* of target terms only — two pipeline outcomes agreeing on those
    but differing in target terms, distractor terms (and holding no
    description fields at all) produce identical creation responses, so the
    terms themselves are never included. -/
theorem C9_creation_response_no_leak (d1 d2 : GameData)
    (hid : d1.gameId = d2.gameId) (htopic : d1.topic = d2.topic)
    (hgrid : d1.grid = d2.grid) (hlen : d1.targetWords.length = d2.targetWords.length) :
    create_response d1 = create_response d2 := by
  simp [create_response, hid, htopic, hgrid, hlen]

/-- Witness for C9: two games with different target and distractor terms of
    equal count give the same creation response. -/
theorem C9_creation_response_no_leak_witness :
    create_response
      { gameId := codes "abc123def456", topic := codes "cell",
        targetWords := [codes "membrane"], distractorWords := [codes "enzyme"],
        grid := [] } =
    create_response
      { gameId := codes "abc123def456", topic := codes "cell",
        targetWords := [codes "ribosome"], distractorWords := [],
        grid := [] } :=
  C9_creation_response_no_leak _ _ rfl rfl rfl rfl

/-- C10: a submission with a known gameId whose body omits `foundWords` is
    scored against the empty list: 200 with empty `foundWords`, all targets
    missed and score 0, not a rejection. -/
theorem C10_submit_without_foundWords (store : GameStore) (gid : List Nat)
    (game : StoredGame) (hgid : gid ≠ []) (hlook : storeLookup store gid = some game) :
    (submit_game store (some gid) none).1 =
      SubmitResponse.ok
        { topic := game.topic
          targetWords := game.targetWords
          foundWords := []
          missedWords := game.targetWords
          score := 0
          totalWords := game.targetWords.length } := by
  simp only [submit_game, Option.getD, hlook, if_neg hgid]
  by_cases ht : game.targetWords = [] <;>
    simp [ht, pyRound_zero, List.filter_eq_self]

/-- Witness for C10: a concrete one-session store submitted with no
    `foundWords` field. -/
theorem C10_submit_without_foundWords_witness :
    (submit_game
        [(codes "g", { topic := codes "cell", targetWords := [codes "wall"],
                       distractorWords := [], grid := [] })]
        (some (codes "g")) none).1 =
      SubmitResponse.ok
        { topic := codes "cell"
          targetWords := [codes "wall"]
          foundWords := []
          missedWords := [codes "wall"]
          score := 0
          totalWords := 1 } :=
  C10_submit_without_foundWords
    [(codes "g", { topic := codes "cell", targetWords := [codes "wall"],
                   distractorWords := [], grid := [] })]
    (codes "g")
    { topic := codes "cell", targetWords := [codes "wall"],
      distractorWords := [], grid := [] }
    (by decide) (by decide)

end BioSearcher
